import Mathlib

/-!
Shallow embedding of the bitbucket-tui core (Go sources under internal/tui and
internal/domain) and verification of its specification claims.

Go strings are modelled as lists of code points (`List Nat`); Go `int` as `Int`;
Go slices as `List`; Go maps as association lists.  Each definition mirrors one
Go function of the source; out-of-range slice indexing (a Go panic) is totalised
with `List.getD`, which never matters under the bounds hypotheses used here.
-/

namespace BitbucketTui

/-- A Go string, as its list of code points. -/
abbrev GoStr := List Nat

/-- Code points of a Lean string literal, for readable Go string constants. -/
def strLit (s : String) : GoStr := s.toList.map Char.toNat

/-- ASCII lowering, the effect of Go `strings.ToLower` on the ASCII strings this
program compares (state names, branch names, queries). -/
def toLowerG (s : GoStr) : GoStr := s.map (fun c => if 65 ≤ c ∧ c ≤ 90 then c + 32 else c)

/-- Whether `pre` is a prefix of `s` (Go `strings.HasPrefix pre`). -/
def isPre : GoStr → GoStr → Bool
  | [], _ => true
  | _ :: _, [] => false
  | a :: as, b :: bs => a == b && isPre as bs

/-- Go `strings.Contains s sub`: `sub` occurs as a contiguous substring of `s`. -/
def containsSub (s sub : GoStr) : Bool :=
  if isPre sub s then true else
    match s with
    | [] => false
    | _ :: t => containsSub t sub

/-- Go `unicode.IsSpace` on the Latin-1 range. -/
def isSpaceB (c : Nat) : Bool := c == 32 || (9 ≤ c && c ≤ 13) || c == 133 || c == 160

/-- Go `strings.TrimSpace`. -/
def trimSpace (s : GoStr) : GoStr := ((s.dropWhile isSpaceB).reverse.dropWhile isSpaceB).reverse

/-- Go `strings.TrimPrefix s pre`. -/
def dropPre (s pre : GoStr) : GoStr := if isPre pre s then s.drop pre.length else s

/-- Decimal digits of `n`, most significant first; `f` is structural fuel. -/
def natToStrAux : Nat → Nat → GoStr
  | 0, _ => []
  | f + 1, n => if n < 10 then [48 + n] else natToStrAux f (n / 10) ++ [48 + n % 10]

/-- Decimal rendering of a natural number. -/
def natToStr (n : Nat) : GoStr := natToStrAux (n + 1) n

/-- Go `fmt.Sprintf "%d"` for an int. -/
def intToStr (i : Int) : GoStr := if i < 0 then 45 :: natToStr (-i).toNat else natToStr i.toNat

/-- Go `strings.Split s "\n"` (code point 10). -/
def splitLines : GoStr → List GoStr
  | [] => [[]]
  | c :: rest =>
    if c = 10 then [] :: splitLines rest else
      match splitLines rest with
      | [] => [[c]]
      | h :: t => (c :: h) :: t

/-! ## Domain model (internal/domain/models.go) -/

/-- domain.Repository. -/
structure Repository where
  Name : GoStr
  Slug : GoStr
  UUID : GoStr
  Mainbranch : GoStr
  UpdatedOn : GoStr
deriving DecidableEq

/-- domain.BranchTarget. -/
structure BranchTarget where
  Hash : GoStr
  Date : GoStr
deriving DecidableEq

/-- domain.Branch. -/
structure Branch where
  Name : GoStr
  Target : BranchTarget
deriving DecidableEq

/-- domain.PullRequest. -/
structure PullRequest where
  ID : Int
  Title : GoStr
  Description : GoStr
  State : GoStr
  Draft : Bool
  Author : GoStr
  SourceBranch : GoStr
  DestBranch : GoStr
  CreatedOn : GoStr
  UpdatedOn : GoStr
  URL : GoStr
deriving DecidableEq

/-- domain.Pipeline.  The `BranchName` field is read throughout
internal/tui/app.go (getFilteredPipelines, renderPipelineBranchColumn); the
models.go snapshot in src predates it, so it is declared here from that usage. -/
structure Pipeline where
  UUID : GoStr
  BuildNumber : Int
  State : GoStr
  Result : GoStr
  CreatedOn : GoStr
  StartedOn : GoStr
  CompletedOn : GoStr
  BranchName : GoStr
deriving DecidableEq

/-- domain.PipelineStep. -/
structure PipelineStep where
  UUID : GoStr
  Name : GoStr
  State : GoStr
  Result : GoStr
  StartedOn : GoStr
  CompletedOn : GoStr
deriving DecidableEq

/-- domain.Commit, declared from its use in internal/tui/pr_commits.go
(Hash, Message, Author are the fields read there). -/
structure Commit where
  Hash : GoStr
  Message : GoStr
  Author : GoStr
deriving DecidableEq

/-- Modelled from the spec: an entry of the secondary change list cached per
commit (`fetchCommitChanges`); its fields are never inspected by the embedded
logic, which only stores and counts the entries.  The concrete struct is
missing from the src snapshot of internal/domain/models.go. -/
structure CommitChange where
  Path : GoStr
deriving DecidableEq

/-! ## TUI state (internal/tui/app.go) -/

/-- The `pane` enum of app.go. -/
inductive Pane
  | repoPane
  | branchPane
  | prPane
deriving DecidableEq

/-- The `viewMode` enum of app.go; `prCommitsView` is declared from its use in
internal/tui/pr_commits.go (the app.go snapshot in src predates it). -/
inductive ViewMode
  | noSelection
  | branchesView
  | prView
  | pipelinesView
  | pipelineStepsView
  | pipelineStepLogView
  | prCommitsView
deriving DecidableEq

/-- The commands Update can return (the tea.Cmd constructors used by app.go and
pr_commits.go, with the identity each fetch is keyed by). -/
inductive Cmd
  | quit
  | loadRepositories
  | loadBranches (repoSlug : GoStr)
  | loadPullRequests (repoSlug : GoStr)
  | loadPipelines (repoSlug : GoStr)
  | pollPipelineUpdates
  | loadPipeline (repoSlug pipelineUUID : GoStr)
  | loadPipelineSteps (repoSlug pipelineUUID : GoStr)
  | loadPipelineStepLog (repoSlug pipelineUUID stepUUID : GoStr)
  | openURL (url : GoStr)
  | openLogInEditor (log title : GoStr)
  | loadCommitChanges (repoSlug hash : GoStr)
  | loadCommitDiff (repoSlug hash : GoStr)
deriving DecidableEq

/-- The messages Update consumes (each `xxxMsg` struct of app.go; an error is
modelled as `Option GoStr` carrying the rendered error text). -/
inductive Msg
  | windowSize (w h : Int)
  | reposLoaded (repos : List Repository) (err : Option GoStr)
  | branchesLoaded (branches : List Branch) (err : Option GoStr)
  | pullRequestsLoaded (prs : List PullRequest) (err : Option GoStr)
  | pipelinesLoaded (pipelines : List Pipeline) (err : Option GoStr)
  | pipelineStepsLoaded (steps : List PipelineStep) (err : Option GoStr)
  | pipelineStepLogLoaded (log : GoStr) (err : Option GoStr)
  | editorClosed (err : Option GoStr)
  | urlOpened (err : Option GoStr)
  | pipelinePollTick
  | pipelinePolled (pipeline : Pipeline) (err : Option GoStr)
  | key (k : GoStr)

/-- The AppModel struct of app.go (client and spinner, both external
collaborators, are omitted).  The `prCommit*` and `selectedPullRequest*` fields
are declared from their use in internal/tui/pr_commits.go; the Go maps are
association lists. -/
structure AppModel where
  workspace : GoStr
  activePane : Pane
  currentView : ViewMode
  repositories : List Repository
  branches : List Branch
  pullRequests : List PullRequest
  pipelines : List Pipeline
  pipelineSteps : List PipelineStep
  pipelineStepLog : GoStr
  pipelineStepLogLines : List GoStr
  repoCursor : Int
  branchCursor : Int
  prCursor : Int
  pipelineCursor : Int
  pipelineStepCursor : Int
  pipelineStepLogCursor : Int
  width : Int
  height : Int
  loading : Bool
  message : GoStr
  selectedRepo : GoStr
  selectedRepoSlug : GoStr
  selectedPipelineRef : GoStr
  selectedPipelineUUID : GoStr
  selectedStepName : GoStr
  filterMode : Bool
  repoFilterQuery : GoStr
  branchFilterQuery : GoStr
  prFilterQuery : GoStr
  pipelineFilterQuery : GoStr
  prCommits : List Commit
  prCommitCursor : Int
  selectedCommitHash : GoStr
  prCommitChanges : List CommitChange
  prCommitDiff : GoStr
  prCommitChangesCache : List (GoStr × List CommitChange)
  prCommitDiffCache : List (GoStr × GoStr)
  selectedPullRequestID : Int
  selectedPullRequest : GoStr
deriving DecidableEq

/-- Zero value used for totalised list indexing. -/
def dfltRepo : Repository := ⟨[], [], [], [], []⟩

/-- Zero value used for totalised list indexing. -/
def dfltPipeline : Pipeline := ⟨[], 0, [], [], [], [], [], []⟩

/-- Zero value used for totalised list indexing. -/
def dfltStep : PipelineStep := ⟨[], [], [], [], [], []⟩

/-- Zero value used for totalised list indexing. -/
def dfltPR : PullRequest := ⟨0, [], [], [], false, [], [], [], [], [], []⟩

/-- Zero value used for totalised list indexing. -/
def dfltCommit : Commit := ⟨[], [], []⟩

/-- The model NewApp returns: repo pane, no selected view, loading. -/
def initialModel (ws : GoStr) : AppModel where
  workspace := ws
  activePane := Pane.repoPane
  currentView := ViewMode.noSelection
  repositories := []
  branches := []
  pullRequests := []
  pipelines := []
  pipelineSteps := []
  pipelineStepLog := []
  pipelineStepLogLines := []
  repoCursor := 0
  branchCursor := 0
  prCursor := 0
  pipelineCursor := 0
  pipelineStepCursor := 0
  pipelineStepLogCursor := 0
  width := 0
  height := 0
  loading := true
  message := []
  selectedRepo := []
  selectedRepoSlug := []
  selectedPipelineRef := []
  selectedPipelineUUID := []
  selectedStepName := []
  filterMode := false
  repoFilterQuery := []
  branchFilterQuery := []
  prFilterQuery := []
  pipelineFilterQuery := []
  prCommits := []
  prCommitCursor := 0
  selectedCommitHash := []
  prCommitChanges := []
  prCommitDiff := []
  prCommitChangesCache := []
  prCommitDiffCache := []
  selectedPullRequestID := 0
  selectedPullRequest := []

/-! ## Filter and window engine (app.go) -/

/-- app.go formatPipelineBranch. -/
def formatPipelineBranch (branchName : GoStr) : GoStr :=
  let branch := trimSpace branchName
  let branch := dropPre branch (strLit "refs/heads/")
  let branch := dropPre branch (strLit "/")
  if branch = [] then strLit "-" else branch

/-- app.go isTrackedPipelineBranch: the allow-list {develop, staging, main, master}. -/
def isTrackedPipelineBranch (branchName : GoStr) : Bool :=
  let branch := toLowerG (formatPipelineBranch branchName)
  branch == strLit "develop" || branch == strLit "staging" ||
    branch == strLit "main" || branch == strLit "master"

/-- The per-pipeline substring match of getFilteredPipelines: case-insensitive
query against state, result, build number and branch name. -/
def pipelineMatches (p : Pipeline) (query : GoStr) : Bool :=
  let buildNumber := intToStr p.BuildNumber
  containsSub (toLowerG p.State) query || containsSub (toLowerG p.Result) query ||
    containsSub (toLowerG buildNumber) query || containsSub (toLowerG p.BranchName) query

/-- app.go (m AppModel) getFilteredRepos. -/
def getFilteredRepos (m : AppModel) : List Repository :=
  if m.repoFilterQuery = [] then m.repositories else
    let query := toLowerG m.repoFilterQuery
    m.repositories.filter
      (fun r => containsSub (toLowerG r.Name) query || containsSub (toLowerG r.Slug) query)

/-- app.go (m AppModel) getFilteredBranches. -/
def getFilteredBranches (m : AppModel) : List Branch :=
  if m.branchFilterQuery = [] then m.branches else
    let query := toLowerG m.branchFilterQuery
    m.branches.filter (fun b => containsSub (toLowerG b.Name) query)

/-- app.go (m AppModel) getFilteredPRs. -/
def getFilteredPRs (m : AppModel) : List PullRequest :=
  if m.prFilterQuery = [] then m.pullRequests else
    let query := toLowerG m.prFilterQuery
    m.pullRequests.filter
      (fun pr => containsSub (toLowerG pr.Title) query || containsSub (toLowerG pr.Author) query ||
        containsSub (toLowerG pr.SourceBranch) query)

/-- app.go (m AppModel) getFilteredPipelines: the tracked-branch restriction is
applied in both branches; with a non-empty query the loop `continue`s past
untracked branches before matching. -/
def getFilteredPipelines (m : AppModel) : List Pipeline :=
  let query := toLowerG m.pipelineFilterQuery
  if query = [] then
    m.pipelines.filter (fun p => isTrackedPipelineBranch p.BranchName)
  else
    m.pipelines.filter (fun p => isTrackedPipelineBranch p.BranchName && pipelineMatches p query)

/-- app.go isPipelineRunning. -/
def isPipelineRunning (p : Pipeline) : Bool :=
  let state := toLowerG (trimSpace p.State)
  state == strLit "in_progress" || state == strLit "running"

/-- app.go selectedRunningPipelineUUID: the UUID of the hovered filtered
pipeline when it is running and the Pipelines detail pane is active, else "". -/
def selectedRunningPipelineUUID (m : AppModel) : GoStr :=
  if ¬(m.activePane = Pane.branchPane) ∨ ¬(m.currentView = ViewMode.pipelinesView) then []
  else
    let filtered := getFilteredPipelines m
    if filtered.length = 0 ∨ m.pipelineCursor < 0 ∨ (filtered.length : Int) ≤ m.pipelineCursor then []
    else
      let selected := filtered.getD m.pipelineCursor.toNat dfltPipeline
      if ¬isPipelineRunning selected then [] else selected.UUID

/-- app.go (m AppModel) calculateWindow; Go `height / 2` is truncated division. -/
def calculateWindow (cursor total height : Int) : Int × Int :=
  if total ≤ height then (0, total)
  else
    let half := Int.tdiv height 2
    let start := cursor - half
    let stop := cursor + half
    let p := if start < 0 then ((0 : Int), height) else (start, stop)
    let p := if total < p.2 then (total - height, total) else p
    (if p.1 < 0 then 0 else p.1, p.2)

/-! ## Result cache (internal/tui/pr_commits.go) -/

/-- Go map lookup on an association list. -/
def lookupCache {α : Type} (cache : List (GoStr × α)) (h : GoStr) : Option α :=
  (cache.find? (fun e => e.1 == h)).map (fun e => e.2)

/-- pr_commits.go updateSelectedCommitDetails: resolve the hovered commit's
change list and diff from the caches, issuing fetches for whatever is missing. -/
def updateSelectedCommitDetails (m : AppModel) : AppModel × List Cmd :=
  if ¬(m.currentView = ViewMode.prCommitsView) ∨ ¬(m.activePane = Pane.branchPane) ∨
      m.prCommits.length = 0 then
    ({ m with selectedCommitHash := [], prCommitChanges := [], prCommitDiff := [] }, [])
  else if m.prCommitCursor < 0 ∨ (m.prCommits.length : Int) ≤ m.prCommitCursor then
    ({ m with selectedCommitHash := [], prCommitChanges := [], prCommitDiff := [] }, [])
  else
    let selected := m.prCommits.getD m.prCommitCursor.toNat dfltCommit
    let hash := trimSpace selected.Hash
    let m := { m with selectedCommitHash := hash }
    if hash = [] then ({ m with prCommitChanges := [], prCommitDiff := [] }, [])
    else
      let changesHit := lookupCache m.prCommitChangesCache hash
      let hasChanges := changesHit.isSome
      let m := { m with prCommitChanges := changesHit.getD [] }
      let diffHit := lookupCache m.prCommitDiffCache hash
      let hasDiff := diffHit.isSome
      let m := { m with prCommitDiff := diffHit.getD [] }
      if hasChanges ∧ hasDiff then (m, [])
      else if m.selectedRepoSlug = [] then (m, [])
      else if ¬hasChanges ∧ ¬hasDiff then
        (m, [Cmd.loadCommitChanges m.selectedRepoSlug hash, Cmd.loadCommitDiff m.selectedRepoSlug hash])
      else if ¬hasChanges then (m, [Cmd.loadCommitChanges m.selectedRepoSlug hash])
      else (m, [Cmd.loadCommitDiff m.selectedRepoSlug hash])

/-! ## Update (app.go): filter sub-mode, navigation keys, async results -/

/-- Which list's query the filter-mode pointer dance selects: the repo list by
default; in the detail pane, the list of the current view; none (early return)
for the steps and log views. -/
inductive FilterTarget
  | repo
  | branch
  | pr
  | pipeline
deriving DecidableEq

/-- The pointer selection at the top of the filterMode branch of Update. -/
def filterTargetOf (m : AppModel) : Option FilterTarget :=
  if m.activePane = Pane.branchPane then
    if m.currentView = ViewMode.branchesView then some FilterTarget.branch
    else if m.currentView = ViewMode.prView then some FilterTarget.pr
    else if m.currentView = ViewMode.pipelinesView then some FilterTarget.pipeline
    else if m.currentView = ViewMode.pipelineStepsView ∨
        m.currentView = ViewMode.pipelineStepLogView then none
    else some FilterTarget.repo
  else some FilterTarget.repo

/-- Read the query the target points at. -/
def targetQuery (m : AppModel) : FilterTarget → GoStr
  | FilterTarget.repo => m.repoFilterQuery
  | FilterTarget.branch => m.branchFilterQuery
  | FilterTarget.pr => m.prFilterQuery
  | FilterTarget.pipeline => m.pipelineFilterQuery

/-- Write through the query pointer. -/
def setTargetQuery (m : AppModel) : FilterTarget → GoStr → AppModel
  | FilterTarget.repo, q => { m with repoFilterQuery := q }
  | FilterTarget.branch, q => { m with branchFilterQuery := q }
  | FilterTarget.pr, q => { m with prFilterQuery := q }
  | FilterTarget.pipeline, q => { m with pipelineFilterQuery := q }

/-- Read the cursor the target points at. -/
def targetCursor (m : AppModel) : FilterTarget → Int
  | FilterTarget.repo => m.repoCursor
  | FilterTarget.branch => m.branchCursor
  | FilterTarget.pr => m.prCursor
  | FilterTarget.pipeline => m.pipelineCursor

/-- Write through the cursor pointer. -/
def setTargetCursor (m : AppModel) : FilterTarget → Int → AppModel
  | FilterTarget.repo, c => { m with repoCursor := c }
  | FilterTarget.branch, c => { m with branchCursor := c }
  | FilterTarget.pr, c => { m with prCursor := c }
  | FilterTarget.pipeline, c => { m with pipelineCursor := c }

/-- The filterMode branch of Update's KeyMsg case. -/
def filterModeKey (m : AppModel) (k : GoStr) : AppModel × List Cmd :=
  match filterTargetOf m with
  | none => (m, [])
  | some t =>
    if k = strLit "esc" then
      (setTargetCursor (setTargetQuery { m with filterMode := false } t []) t 0, [])
    else if k = strLit "enter" then ({ m with filterMode := false }, [])
    else if k = strLit "backspace" then
      if 0 < (targetQuery m t).length then
        (setTargetCursor (setTargetQuery m t (targetQuery m t).dropLast) t 0, [])
      else (m, [])
    else if k.length = 1 then
      (setTargetCursor (setTargetQuery m t (targetQuery m t ++ k)) t 0, [])
    else (m, [])

/-- The pipeline-list in-place replacement of the pipelinePolledMsg case:
replace the first pipeline whose UUID matches, then stop (the Go loop breaks). -/
def replacePipelineByUUID : List Pipeline → Pipeline → List Pipeline
  | [], _ => []
  | q :: rest, p => if q.UUID = p.UUID then p :: rest else q :: replacePipelineByUUID rest p

/-- The navigation-mode branch of Update's KeyMsg case (msg.String switch). -/
def navKey (m : AppModel) (k : GoStr) : AppModel × List Cmd :=
  if k = strLit "q" ∨ k = strLit "ctrl+c" then (m, [Cmd.quit])
  else if k = strLit "esc" then
    if m.activePane = Pane.branchPane ∧ m.currentView = ViewMode.pipelineStepLogView then
      ({ m with currentView := ViewMode.pipelineStepsView, pipelineStepLog := [],
                pipelineStepLogLines := [], pipelineStepLogCursor := 0 }, [])
    else if m.activePane = Pane.branchPane ∧ m.currentView = ViewMode.pipelineStepsView then
      ({ m with currentView := ViewMode.pipelinesView, pipelineStepCursor := 0,
                pipelineSteps := [] }, [])
    else if m.activePane = Pane.branchPane then
      ({ m with activePane := Pane.repoPane, currentView := ViewMode.noSelection }, [])
    else (m, [])
  else if k = strLit "/" then
    if ¬(m.currentView = ViewMode.pipelineStepsView) ∧
        ¬(m.currentView = ViewMode.pipelineStepLogView) then
      ({ m with filterMode := true }, [])
    else (m, [])
  else if k = strLit "enter" then
    if ¬m.filterMode ∧ m.activePane = Pane.repoPane ∧ 0 < (getFilteredRepos m).length then
      let repos := getFilteredRepos m
      let repo := repos.getD m.repoCursor.toNat dfltRepo
      ({ m with currentView := ViewMode.prView, activePane := Pane.branchPane, loading := true,
                pullRequests := [], prFilterQuery := [], prCursor := 0,
                selectedRepo := repo.Name, selectedRepoSlug := repo.Slug },
       [Cmd.loadPullRequests repo.Slug])
    else if ¬m.filterMode ∧ m.activePane = Pane.branchPane ∧
        m.currentView = ViewMode.pipelinesView ∧ 0 < (getFilteredPipelines m).length then
      let filtered := getFilteredPipelines m
      let selectedPipeline := filtered.getD m.pipelineCursor.toNat dfltPipeline
      if selectedPipeline.UUID = [] then
        ({ m with message := strLit "Selected pipeline has no UUID" }, [])
      else
        ({ m with selectedPipelineRef := 35 :: intToStr selectedPipeline.BuildNumber,
                  selectedPipelineUUID := selectedPipeline.UUID,
                  currentView := ViewMode.pipelineStepsView, loading := true,
                  pipelineSteps := [], pipelineStepCursor := 0 },
         [Cmd.loadPipelineSteps m.selectedRepoSlug selectedPipeline.UUID])
    else if ¬m.filterMode ∧ m.activePane = Pane.branchPane ∧
        m.currentView = ViewMode.pipelineStepsView ∧ 0 < m.pipelineSteps.length ∧
        m.selectedPipelineUUID ≠ [] then
      let selectedStep := m.pipelineSteps.getD m.pipelineStepCursor.toNat dfltStep
      if selectedStep.UUID = [] then
        ({ m with message := strLit "Selected step has no UUID" }, [])
      else
        let stepName := if selectedStep.Name = [] then selectedStep.UUID else selectedStep.Name
        ({ m with selectedStepName := stepName, currentView := ViewMode.pipelineStepLogView,
                  loading := true, pipelineStepLog := [], pipelineStepLogLines := [],
                  pipelineStepLogCursor := 0 },
         [Cmd.loadPipelineStepLog m.selectedRepoSlug m.selectedPipelineUUID selectedStep.UUID])
    else (m, [])
  else if k = strLit "h" then
    if ¬m.filterMode ∧ m.activePane = Pane.branchPane ∧ m.selectedRepoSlug ≠ [] ∧
        ¬(m.currentView = ViewMode.pipelineStepsView) ∧
        ¬(m.currentView = ViewMode.pipelineStepLogView) then
      if m.currentView = ViewMode.branchesView then
        ({ m with currentView := ViewMode.prView, loading := true, pullRequests := [],
                  prFilterQuery := [], prCursor := 0 },
         [Cmd.loadPullRequests m.selectedRepoSlug])
      else if m.currentView = ViewMode.prView then
        ({ m with currentView := ViewMode.pipelinesView, loading := true, pipelines := [],
                  pipelineFilterQuery := [], pipelineCursor := 0 },
         [Cmd.loadPipelines m.selectedRepoSlug])
      else if m.currentView = ViewMode.pipelinesView then
        ({ m with currentView := ViewMode.branchesView, loading := true, branches := [],
                  branchFilterQuery := [], branchCursor := 0 },
         [Cmd.loadBranches m.selectedRepoSlug])
      else (m, [])
    else (m, [])
  else if k = strLit "l" then
    if ¬m.filterMode ∧ m.activePane = Pane.branchPane ∧ m.selectedRepoSlug ≠ [] ∧
        ¬(m.currentView = ViewMode.pipelineStepsView) ∧
        ¬(m.currentView = ViewMode.pipelineStepLogView) then
      if m.currentView = ViewMode.prView then
        ({ m with currentView := ViewMode.branchesView, loading := true, branches := [],
                  branchFilterQuery := [], branchCursor := 0 },
         [Cmd.loadBranches m.selectedRepoSlug])
      else if m.currentView = ViewMode.branchesView then
        ({ m with currentView := ViewMode.pipelinesView, loading := true, pipelines := [],
                  pipelineFilterQuery := [], pipelineCursor := 0 },
         [Cmd.loadPipelines m.selectedRepoSlug])
      else if m.currentView = ViewMode.pipelinesView then
        ({ m with currentView := ViewMode.prView, loading := true, pullRequests := [],
                  prFilterQuery := [], prCursor := 0 },
         [Cmd.loadPullRequests m.selectedRepoSlug])
      else (m, [])
    else (m, [])
  else if k = strLit "b" then
    if ¬m.filterMode ∧ m.activePane = Pane.repoPane ∧ 0 < (getFilteredRepos m).length then
      let repos := getFilteredRepos m
      let repo := repos.getD m.repoCursor.toNat dfltRepo
      ({ m with currentView := ViewMode.branchesView, activePane := Pane.branchPane,
                loading := true, branches := [], branchFilterQuery := [], branchCursor := 0,
                selectedRepo := repo.Name, selectedRepoSlug := repo.Slug },
       [Cmd.loadBranches repo.Slug])
    else (m, [])
  else if k = strLit "j" ∨ k = strLit "down" then
    if ¬m.filterMode then
      let mc : AppModel × Bool :=
        if m.activePane = Pane.repoPane then
          if m.repoCursor < ((getFilteredRepos m).length : Int) - 1 then
            ({ m with repoCursor := m.repoCursor + 1 }, true)
          else (m, false)
        else if m.currentView = ViewMode.branchesView then
          if m.branchCursor < ((getFilteredBranches m).length : Int) - 1 then
            ({ m with branchCursor := m.branchCursor + 1 }, true)
          else (m, false)
        else if m.currentView = ViewMode.prView then
          if m.prCursor < ((getFilteredPRs m).length : Int) - 1 then
            ({ m with prCursor := m.prCursor + 1 }, true)
          else (m, false)
        else if m.currentView = ViewMode.pipelinesView then
          if m.pipelineCursor < ((getFilteredPipelines m).length : Int) - 1 then
            ({ m with pipelineCursor := m.pipelineCursor + 1 }, true)
          else (m, false)
        else if m.currentView = ViewMode.pipelineStepsView then
          if m.pipelineStepCursor < (m.pipelineSteps.length : Int) - 1 then
            ({ m with pipelineStepCursor := m.pipelineStepCursor + 1 }, true)
          else (m, false)
        else if m.currentView = ViewMode.pipelineStepLogView then
          if m.pipelineStepLogCursor < (m.pipelineStepLogLines.length : Int) - 1 then
            ({ m with pipelineStepLogCursor := m.pipelineStepLogCursor + 1 }, true)
          else (m, false)
        else (m, false)
      if mc.2 ∧ mc.1.activePane = Pane.branchPane ∧ mc.1.currentView = ViewMode.pipelinesView ∧
          selectedRunningPipelineUUID mc.1 ≠ [] then
        (mc.1, [Cmd.pollPipelineUpdates])
      else (mc.1, [])
    else (m, [])
  else if k = strLit "k" ∨ k = strLit "up" then
    if ¬m.filterMode then
      let mc : AppModel × Bool :=
        if m.activePane = Pane.repoPane then
          if 0 < m.repoCursor then ({ m with repoCursor := m.repoCursor - 1 }, true)
          else (m, false)
        else if m.currentView = ViewMode.branchesView then
          if 0 < m.branchCursor then ({ m with branchCursor := m.branchCursor - 1 }, true)
          else (m, false)
        else if m.currentView = ViewMode.prView then
          if 0 < m.prCursor then ({ m with prCursor := m.prCursor - 1 }, true)
          else (m, false)
        else if m.currentView = ViewMode.pipelinesView then
          if 0 < m.pipelineCursor then ({ m with pipelineCursor := m.pipelineCursor - 1 }, true)
          else (m, false)
        else if m.currentView = ViewMode.pipelineStepsView then
          if 0 < m.pipelineStepCursor then
            ({ m with pipelineStepCursor := m.pipelineStepCursor - 1 }, true)
          else (m, false)
        else if m.currentView = ViewMode.pipelineStepLogView then
          if 0 < m.pipelineStepLogCursor then
            ({ m with pipelineStepLogCursor := m.pipelineStepLogCursor - 1 }, true)
          else (m, false)
        else (m, false)
      if mc.2 ∧ mc.1.activePane = Pane.branchPane ∧ mc.1.currentView = ViewMode.pipelinesView ∧
          selectedRunningPipelineUUID mc.1 ≠ [] then
        (mc.1, [Cmd.pollPipelineUpdates])
      else (mc.1, [])
    else (m, [])
  else if k = strLit "p" then
    if ¬m.filterMode ∧ m.activePane = Pane.repoPane ∧ 0 < (getFilteredRepos m).length then
      let repos := getFilteredRepos m
      let repo := repos.getD m.repoCursor.toNat dfltRepo
      ({ m with currentView := ViewMode.prView, activePane := Pane.branchPane, loading := true,
                pullRequests := [], prFilterQuery := [], prCursor := 0,
                selectedRepo := repo.Name, selectedRepoSlug := repo.Slug },
       [Cmd.loadPullRequests repo.Slug])
    else (m, [])
  else if k = strLit "o" then
    if ¬m.filterMode ∧ m.activePane = Pane.branchPane ∧ m.currentView = ViewMode.prView ∧
        0 < (getFilteredPRs m).length then
      let selectedPR := (getFilteredPRs m).getD m.prCursor.toNat dfltPR
      let prURL := trimSpace selectedPR.URL
      let prURL := if isPre (strLit "https://") prURL || isPre (strLit "http://") prURL
        then prURL else []
      let prURL :=
        if prURL = [] ∧ 0 < selectedPR.ID ∧ m.workspace ≠ [] ∧ m.selectedRepoSlug ≠ [] then
          strLit "https://bitbucket.org/" ++ m.workspace ++ strLit "/" ++ m.selectedRepoSlug ++
            strLit "/pull-requests/" ++ intToStr selectedPR.ID
        else prURL
      if prURL ≠ [] then (m, [Cmd.openURL prURL])
      else ({ m with message := strLit "Selected PR has no URL" }, [])
    else (m, [])
  else if k = strLit "v" then
    if ¬m.filterMode ∧ m.activePane = Pane.branchPane ∧
        m.currentView = ViewMode.pipelineStepLogView ∧ ¬m.loading then
      (m, [Cmd.openLogInEditor m.pipelineStepLog m.selectedStepName])
    else (m, [])
  else if k = strLit "r" then
    if ¬m.filterMode ∧ m.activePane = Pane.branchPane ∧ m.selectedRepoSlug ≠ [] then
      if m.currentView = ViewMode.branchesView then
        ({ m with loading := true, branches := [], branchCursor := 0 },
         [Cmd.loadBranches m.selectedRepoSlug])
      else if m.currentView = ViewMode.prView then
        ({ m with loading := true, pullRequests := [], prCursor := 0 },
         [Cmd.loadPullRequests m.selectedRepoSlug])
      else if m.currentView = ViewMode.pipelinesView then
        ({ m with loading := true, pipelines := [], pipelineCursor := 0 },
         [Cmd.loadPipelines m.selectedRepoSlug])
      else if m.currentView = ViewMode.pipelineStepsView then
        if m.selectedPipelineUUID ≠ [] then
          ({ m with loading := true, pipelineSteps := [], pipelineStepCursor := 0 },
           [Cmd.loadPipelineSteps m.selectedRepoSlug m.selectedPipelineUUID])
        else (m, [])
      else (m, [])
    else (m, [])
  else (m, [])

/-- app.go (m AppModel) Update, as a pure step function state × message to
state × commands (the single entry point `handle`).  The spinner animation
message, pure UI, is omitted. -/
def step (m : AppModel) (msg : Msg) : AppModel × List Cmd :=
  match msg with
  | Msg.windowSize w h => ({ m with width := w, height := h }, [])
  | Msg.reposLoaded repos err =>
    match err with
    | some e => ({ m with loading := false, message := strLit "Error loading repos: " ++ e }, [])
    | none => ({ m with loading := false, repositories := repos, message := [] }, [])
  | Msg.branchesLoaded bs err =>
    match err with
    | some e => ({ m with loading := false, message := strLit "Error loading branches: " ++ e }, [])
    | none =>
      ({ m with loading := false, branches := bs, branchCursor := 0, message := [] }, [])
  | Msg.pullRequestsLoaded prs err =>
    match err with
    | some e =>
      ({ m with loading := false, message := strLit "Error loading pull requests: " ++ e }, [])
    | none => ({ m with loading := false, pullRequests := prs, prCursor := 0, message := [] }, [])
  | Msg.pipelinesLoaded ps err =>
    match err with
    | some e =>
      ({ m with loading := false, message := strLit "Error loading pipelines: " ++ e }, [])
    | none =>
      let previousCursor := m.pipelineCursor
      let cur : Int :=
        if ps.length = 0 then 0
        else if 0 ≤ previousCursor ∧ previousCursor < (ps.length : Int) then previousCursor
        else (ps.length : Int) - 1
      let m2 := { m with loading := false, pipelines := ps, pipelineCursor := cur, message := [] }
      if m2.activePane = Pane.branchPane ∧ m2.currentView = ViewMode.pipelinesView ∧
          selectedRunningPipelineUUID m2 ≠ [] then
        (m2, [Cmd.pollPipelineUpdates])
      else (m2, [])
  | Msg.pipelineStepsLoaded ss err =>
    match err with
    | some e =>
      ({ m with loading := false, message := strLit "Error loading pipeline steps: " ++ e }, [])
    | none =>
      ({ m with loading := false, pipelineSteps := ss, pipelineStepCursor := 0, message := [] }, [])
  | Msg.pipelineStepLogLoaded lg err =>
    match err with
    | some e =>
      ({ m with loading := false, message := strLit "Error loading pipeline log: " ++ e }, [])
    | none =>
      let ls := if trimSpace lg = [] then [strLit "No log output returned for this step."]
        else splitLines lg
      ({ m with loading := false, pipelineStepLog := lg, pipelineStepLogLines := ls,
                pipelineStepLogCursor := 0, message := [] }, [])
  | Msg.editorClosed err =>
    match err with
    | some e => ({ m with message := strLit "Editor error: " ++ e }, [])
    | none => ({ m with message := strLit "Closed log viewer" }, [])
  | Msg.urlOpened err =>
    match err with
    | some e => ({ m with message := strLit "Open URL error: " ++ e }, [])
    | none => ({ m with message := strLit "Opened PR in browser" }, [])
  | Msg.pipelinePollTick =>
    if m.activePane = Pane.branchPane ∧ m.currentView = ViewMode.pipelinesView ∧
        m.selectedRepoSlug ≠ [] then
      let pipelineUUID := selectedRunningPipelineUUID m
      if pipelineUUID ≠ [] then (m, [Cmd.loadPipeline m.selectedRepoSlug pipelineUUID])
      else (m, [])
    else (m, [])
  | Msg.pipelinePolled p err =>
    match err with
    | some e =>
      let m2 := { m with message := strLit "Error polling pipeline: " ++ e }
      if m2.activePane = Pane.branchPane ∧ m2.currentView = ViewMode.pipelinesView ∧
          selectedRunningPipelineUUID m2 ≠ [] then
        (m2, [Cmd.pollPipelineUpdates])
      else (m2, [])
    | none =>
      let m2 := { m with pipelines := replacePipelineByUUID m.pipelines p }
      if m2.activePane = Pane.branchPane ∧ m2.currentView = ViewMode.pipelinesView ∧
          isPipelineRunning p then
        (m2, [Cmd.pollPipelineUpdates])
      else (m2, [])
  | Msg.key k =>
    let m1 := { m with message := [] }
    if m1.filterMode then filterModeKey m1 k else navKey m1 k

/-- Fold a message sequence through the step function, keeping the state. -/
def run (m : AppModel) (msgs : List Msg) : AppModel :=
  msgs.foldl (fun acc msg => (step acc msg).1) m

/-- Formalisation of the specification's pipeline-filter rule (spec 4.4), for
comparison with the source's getFilteredPipelines: the tracked-branch
restriction applies only while the query is empty; once any query text is
entered the full pipeline set is searched. -/
def specFilteredPipelines (m : AppModel) : List Pipeline :=
  let query := toLowerG m.pipelineFilterQuery
  if query = [] then
    m.pipelines.filter (fun p => isTrackedPipelineBranch p.BranchName)
  else
    m.pipelines.filter (fun p => pipelineMatches p query)

/-- Views whose lists carry no filter query (steps and log). -/
def noFilterView (v : ViewMode) : Prop :=
  v = ViewMode.pipelineStepsView ∨ v = ViewMode.pipelineStepLogView

/-- States reachable from a fresh application model by any event sequence. -/
inductive Reachable : AppModel → Prop
  | init (ws : GoStr) : Reachable (initialModel ws)
  | next {m : AppModel} (h : Reachable m) (msg : Msg) : Reachable (step m msg).1

/-! ## Concrete states used by counterexamples and witnesses -/

/-- A pipeline on an untracked branch whose build number matches query "3". -/
def c1Pipeline : Pipeline :=
  { dfltPipeline with UUID := strLit "u1", BuildNumber := 3, BranchName := strLit "feature" }

/-- A pipeline on the tracked branch main. -/
def c1MainPipeline : Pipeline :=
  { dfltPipeline with UUID := strLit "u2", BuildNumber := 7, BranchName := strLit "main" }

/-- Pipelines view state with query "3" over a feature-branch pipeline. -/
def c1Model : AppModel :=
  { initialModel (strLit "ws") with
      pipelines := [c1Pipeline, c1MainPipeline], pipelineFilterQuery := strLit "3" }

/-- A commit with a plain hash. -/
def c2Commit : Commit := { dfltCommit with Hash := strLit "abc" }

/-- Commit-details state hovering c2Commit with empty caches. -/
def c2Model : AppModel :=
  { initialModel (strLit "ws") with
      currentView := ViewMode.prCommitsView,
      activePane := Pane.branchPane,
      prCommits := [c2Commit],
      prCommitCursor := 0,
      selectedRepoSlug := strLit "r1" }

/-- The single repository of the claim-4 trace. -/
def c4Repo : Repository := { dfltRepo with Name := strLit "r1", Slug := strLit "r1" }

/-- Completed pipeline a on main. -/
def c4PipeA : Pipeline :=
  { dfltPipeline with
      UUID := strLit "a"
      BuildNumber := 1
      BranchName := strLit "main"
      State := strLit "COMPLETED" }

/-- Completed pipeline b on main. -/
def c4PipeB : Pipeline :=
  { dfltPipeline with
      UUID := strLit "b"
      BuildNumber := 2
      BranchName := strLit "main"
      State := strLit "COMPLETED" }

/-- Completed pipeline c on main. -/
def c4PipeC : Pipeline :=
  { dfltPipeline with
      UUID := strLit "c"
      BuildNumber := 3
      BranchName := strLit "main"
      State := strLit "COMPLETED" }

/-- Completed pipeline d on the untracked branch feature. -/
def c4PipeD : Pipeline :=
  { dfltPipeline with
      UUID := strLit "d"
      BuildNumber := 4
      BranchName := strLit "feature"
      State := strLit "COMPLETED" }

/-- An event trace with two pipelines fetches in flight: enter a repo, move to
Pipelines (fetch 1), lateral to PRs and back to Pipelines (fetch 2), apply the
first result, move the cursor down, then apply the second result. -/
def c4Trace : List Msg :=
  [Msg.reposLoaded [c4Repo] none, Msg.key (strLit "enter"), Msg.key (strLit "h"),
   Msg.key (strLit "l"), Msg.key (strLit "h"),
   Msg.pipelinesLoaded [c4PipeA, c4PipeB] none, Msg.key (strLit "j"),
   Msg.pipelinesLoaded [c4PipeC, c4PipeD] none]

/-- The state reached by the claim-4 trace. -/
def c4Model : AppModel := run (initialModel (strLit "ws")) c4Trace

/-- The state after entering a repo-list query "a" and committing it. -/
def c6Model : AppModel :=
  run (initialModel (strLit "ws"))
    [Msg.key (strLit "/"), Msg.key (strLit "a"), Msg.key (strLit "enter")]

/-- A filter-mode state over the repo list with a committed query. -/
def c6WitnessModel : AppModel :=
  { initialModel (strLit "ws") with filterMode := true, repoFilterQuery := strLit "a" }

/-- A tracked-branch pipeline with an empty UUID. -/
def c7Pipeline : Pipeline :=
  { dfltPipeline with BuildNumber := 9, BranchName := strLit "main" }

/-- Pipelines view hovering the empty-identity pipeline. -/
def c7Model : AppModel :=
  { initialModel (strLit "ws") with
      currentView := ViewMode.pipelinesView,
      activePane := Pane.branchPane,
      pipelines := [c7Pipeline],
      selectedRepoSlug := strLit "r1" }

/-- Pipeline-steps detail state used by the back-navigation witness. -/
def c8Model : AppModel :=
  { initialModel (strLit "ws") with
      currentView := ViewMode.pipelineStepLogView,
      activePane := Pane.branchPane }

/-- Pipeline-steps view with a pending status message. -/
def c10Model : AppModel :=
  { initialModel (strLit "ws") with
      currentView := ViewMode.pipelineStepsView,
      activePane := Pane.branchPane,
      message := strLit "x" }

/-! ## Helper lemmas about the step function -/

set_option maxHeartbeats 1000000

theorem ite_pair_fst (c : Prop) [Decidable c] (a : AppModel) (x y : List Cmd) :
    (if c then (a, x) else (a, y)).1 = a := by
  split <;> rfl

theorem ite_pair_poll (c : Prop) [Decidable c] (a : AppModel)
    (h : Cmd.pollPipelineUpdates ∈ (if c then (a, [Cmd.pollPipelineUpdates]) else (a, [])).2) :
    c := by
  revert h
  split <;> simp_all

theorem step_pipelinesLoaded_fst (m : AppModel) (ps : List Pipeline) :
    (step m (Msg.pipelinesLoaded ps none)).1 =
      { m with loading := false, pipelines := ps, message := [],
               pipelineCursor :=
                 if ps.length = 0 then 0
                 else if 0 ≤ m.pipelineCursor ∧ m.pipelineCursor < (ps.length : Int) then
                   m.pipelineCursor
                 else (ps.length : Int) - 1 } := by
  simp only [step, ite_pair_fst]

theorem step_pipelinesLoaded_cursor (m : AppModel) (ps : List Pipeline) :
    (step m (Msg.pipelinesLoaded ps none)).1.pipelineCursor =
      if ps.length = 0 then 0
      else if 0 ≤ m.pipelineCursor ∧ m.pipelineCursor < (ps.length : Int) then m.pipelineCursor
      else (ps.length : Int) - 1 := by
  rw [step_pipelinesLoaded_fst]

theorem step_key_nav (m : AppModel) (k : GoStr) (hf : m.filterMode = false) :
    step m (Msg.key k) = navKey { m with message := [] } k := by
  simp only [step, hf]
  rfl

theorem step_key_filter (m : AppModel) (k : GoStr) (hf : m.filterMode = true) :
    step m (Msg.key k) = filterModeKey { m with message := [] } k := by
  simp only [step, hf]
  rfl

theorem filterModeKey_none (m : AppModel) (k : GoStr)
    (h : filterTargetOf m = none) : filterModeKey m k = (m, []) := by
  unfold filterModeKey
  rw [h]

theorem filterModeKey_some (m : AppModel) (k : GoStr) (t : FilterTarget)
    (h : filterTargetOf m = some t) :
    filterModeKey m k =
      if k = strLit "esc" then
        (setTargetCursor (setTargetQuery { m with filterMode := false } t []) t 0, [])
      else if k = strLit "enter" then ({ m with filterMode := false }, [])
      else if k = strLit "backspace" then
        if 0 < (targetQuery m t).length then
          (setTargetCursor (setTargetQuery m t (targetQuery m t).dropLast) t 0, [])
        else (m, [])
      else if k.length = 1 then
        (setTargetCursor (setTargetQuery m t (targetQuery m t ++ k)) t 0, [])
      else (m, []) := by
  unfold filterModeKey
  rw [h]

theorem filterModeKey_cmds (m : AppModel) (k : GoStr) : (filterModeKey m k).2 = [] := by
  rcases h : filterTargetOf m with _ | t
  · rw [filterModeKey_none m k h]
  · rw [filterModeKey_some m k t h]
    split_ifs <;> rfl

theorem filterModeKey_view (m : AppModel) (k : GoStr) :
    (filterModeKey m k).1.currentView = m.currentView := by
  rcases h : filterTargetOf m with _ | t
  · rw [filterModeKey_none m k h]
  · rw [filterModeKey_some m k t h]
    split_ifs <;> cases t <;> rfl

theorem filterModeKey_fm (m : AppModel) (k : GoStr)
    (h : (filterModeKey m k).1.filterMode = true) : m.filterMode = true := by
  revert h
  rcases h : filterTargetOf m with _ | t
  · rw [filterModeKey_none m k h]
    exact id
  · rw [filterModeKey_some m k t h]
    split_ifs <;> cases t <;> intro hx <;>
      first
        | exact hx
        | exact absurd hx Bool.false_ne_true
        | exact hx.elim

theorem filterModeKey_esc (m : AppModel) (t : FilterTarget)
    (ht : filterTargetOf m = some t) :
    filterModeKey m (strLit "esc") =
      (setTargetCursor (setTargetQuery { m with filterMode := false } t []) t 0, []) := by
  unfold filterModeKey
  rw [ht]
  rfl

theorem navKey_slash (m : AppModel) :
    navKey m (strLit "/") =
      if ¬(m.currentView = ViewMode.pipelineStepsView) ∧
          ¬(m.currentView = ViewMode.pipelineStepLogView) then
        ({ m with filterMode := true }, [])
      else (m, []) := by
  unfold navKey
  rw [if_neg (by decide : ¬(strLit "/" = strLit "q" ∨ strLit "/" = strLit "ctrl+c"))]
  rw [if_neg (by decide : ¬(strLit "/" = strLit "esc"))]
  rw [if_pos (rfl : strLit "/" = strLit "/")]

theorem navKey_ne_slash_fm (m : AppModel) (k : GoStr) (hk : ¬ k = strLit "/") :
    (navKey m k).1.filterMode = m.filterMode := by
  unfold navKey
  by_cases h1 : k = strLit "q" ∨ k = strLit "ctrl+c"
  · rw [if_pos h1]
  · rw [if_neg h1]
    by_cases h2 : k = strLit "esc"
    · rw [if_pos h2]
      split_ifs <;> rfl
    · rw [if_neg h2, if_neg hk]
      by_cases h4 : k = strLit "enter"
      · rw [if_pos h4]
        dsimp only []
        split_ifs <;> rfl
      · rw [if_neg h4]
        by_cases h5 : k = strLit "h"
        · rw [if_pos h5]
          split_ifs <;> rfl
        · rw [if_neg h5]
          by_cases h6 : k = strLit "l"
          · rw [if_pos h6]
            split_ifs <;> rfl
          · rw [if_neg h6]
            by_cases h7 : k = strLit "b"
            · rw [if_pos h7]
              dsimp only []
              split_ifs <;> rfl
            · rw [if_neg h7]
              by_cases h8 : k = strLit "j" ∨ k = strLit "down"
              · rw [if_pos h8]
                by_cases hfm : ¬(m.filterMode = true)
                · rw [if_pos hfm, ite_pair_fst]
                  split_ifs <;> rfl
                · rw [if_neg hfm]
              · rw [if_neg h8]
                by_cases h9 : k = strLit "k" ∨ k = strLit "up"
                · rw [if_pos h9]
                  by_cases hfm : ¬(m.filterMode = true)
                  · rw [if_pos hfm, ite_pair_fst]
                    split_ifs <;> rfl
                  · rw [if_neg hfm]
                · rw [if_neg h9]
                  by_cases h10 : k = strLit "p"
                  · rw [if_pos h10]
                    dsimp only []
                    split_ifs <;> rfl
                  · rw [if_neg h10]
                    by_cases h11 : k = strLit "o"
                    · rw [if_pos h11]
                      dsimp only []
                      split_ifs <;> rfl
                    · rw [if_neg h11]
                      by_cases h12 : k = strLit "v"
                      · rw [if_pos h12]
                        split_ifs <;> rfl
                      · rw [if_neg h12]
                        by_cases h13 : k = strLit "r"
                        · rw [if_pos h13]
                          split_ifs <;> rfl
                        · rw [if_neg h13]

theorem step_async_fm_view (m : AppModel) (msg : Msg) (hmsg : ∀ k, msg ≠ Msg.key k) :
    (step m msg).1.filterMode = m.filterMode ∧ (step m msg).1.currentView = m.currentView := by
  cases msg with
  | windowSize w h => exact ⟨rfl, rfl⟩
  | reposLoaded rs err => cases err <;> exact ⟨rfl, rfl⟩
  | branchesLoaded bs err => cases err <;> exact ⟨rfl, rfl⟩
  | pullRequestsLoaded prs err => cases err <;> exact ⟨rfl, rfl⟩
  | pipelinesLoaded ps err =>
    cases err
    · rw [step_pipelinesLoaded_fst]
      exact ⟨rfl, rfl⟩
    · exact ⟨rfl, rfl⟩
  | pipelineStepsLoaded ss err => cases err <;> exact ⟨rfl, rfl⟩
  | pipelineStepLogLoaded lg err => cases err <;> exact ⟨rfl, rfl⟩
  | editorClosed err => cases err <;> exact ⟨rfl, rfl⟩
  | urlOpened err => cases err <;> exact ⟨rfl, rfl⟩
  | pipelinePollTick =>
    simp only [step]
    split_ifs <;> exact ⟨rfl, rfl⟩
  | pipelinePolled p err =>
    cases err <;> simp only [step] <;> constructor <;> rw [ite_pair_fst]
  | key k => exact absurd rfl (hmsg k)

theorem step_preserves_filter_inv (m : AppModel) (msg : Msg)
    (h : ¬(m.filterMode = true ∧ noFilterView m.currentView)) :
    ¬((step m msg).1.filterMode = true ∧ noFilterView (step m msg).1.currentView) := by
  by_cases hk : ∃ k, msg = Msg.key k
  · obtain ⟨k, rfl⟩ := hk
    by_cases hfm : m.filterMode = true
    · rw [step_key_filter m k hfm]
      intro hcontra
      apply h
      refine ⟨filterModeKey_fm { m with message := [] } k hcontra.1, ?_⟩
      have hv := filterModeKey_view { m with message := [] } k
      rw [hv] at hcontra
      exact hcontra.2
    · have hf : m.filterMode = false := by
        revert hfm
        cases m.filterMode <;> simp
      rw [step_key_nav m k hf]
      by_cases hks : k = strLit "/"
      · subst hks
        rw [navKey_slash]
        split_ifs with hg
        · intro hcontra
          exact hcontra.2.elim hg.1 hg.2
        · intro hcontra
          exact absurd (show m.filterMode = true from hcontra.1) (by simp [hf])
      · intro hcontra
        have := navKey_ne_slash_fm { m with message := [] } k hks
        rw [this] at hcontra
        exact absurd (show m.filterMode = true from hcontra.1) (by simp [hf])
  · push_neg at hk
    obtain ⟨h1, h2⟩ := step_async_fm_view m msg hk
    intro hcontra
    rw [h1] at hcontra
    rw [h2] at hcontra
    exact h hcontra

theorem reachable_no_filter_in_steps (m : AppModel) (h : Reachable m) :
    ¬(m.filterMode = true ∧ noFilterView m.currentView) := by
  induction h with
  | init ws =>
    rintro ⟨h1, _⟩
    simp [initialModel] at h1
  | next hr msg ih => exact step_preserves_filter_inv _ msg ih

theorem calcWin_eq (cursor total height : Int) (h : ¬ total ≤ height) :
    calculateWindow cursor total height =
      if cursor - height.tdiv 2 < 0 then (0, height)
      else if total < cursor + height.tdiv 2 then (total - height, total)
      else (cursor - height.tdiv 2, cursor + height.tdiv 2) := by
  unfold calculateWindow
  rw [if_neg h]
  have hth : ¬ total < height := by omega
  by_cases h1 : cursor - height.tdiv 2 < 0
  · simp [h1, hth]
  · by_cases h2 : total < cursor + height.tdiv 2
    · have h3 : ¬ total - height < 0 := by omega
      simp [h1, h2, h3]
    · simp [h1, h2]

theorem navKey_esc_cases (m : AppModel) :
    ((navKey m (strLit "esc")).2 = []) ∧
    (m.activePane = Pane.branchPane → m.currentView = ViewMode.pipelineStepLogView →
      (navKey m (strLit "esc")).1.currentView = ViewMode.pipelineStepsView ∧
        (navKey m (strLit "esc")).1.activePane = Pane.branchPane) ∧
    (m.activePane = Pane.branchPane → m.currentView = ViewMode.pipelineStepsView →
      (navKey m (strLit "esc")).1.currentView = ViewMode.pipelinesView ∧
        (navKey m (strLit "esc")).1.activePane = Pane.branchPane) ∧
    (m.activePane = Pane.branchPane →
      (m.currentView = ViewMode.branchesView ∨ m.currentView = ViewMode.prView ∨
        m.currentView = ViewMode.pipelinesView) →
      (navKey m (strLit "esc")).1.currentView = ViewMode.noSelection ∧
        (navKey m (strLit "esc")).1.activePane = Pane.repoPane) := by
  unfold navKey
  rw [if_neg (by decide : ¬(strLit "esc" = strLit "q" ∨ strLit "esc" = strLit "ctrl+c"))]
  rw [if_pos rfl]
  split_ifs with h1 h2 h3 <;>
    refine ⟨rfl, ?_, ?_, ?_⟩ <;> intro hp hv <;> simp_all

theorem navKey_enter_noUUID (m : AppModel)
    (hf : m.filterMode = false)
    (hpane : m.activePane = Pane.branchPane)
    (hview : m.currentView = ViewMode.pipelinesView)
    (hcur : 0 ≤ m.pipelineCursor ∧ m.pipelineCursor.toNat < (getFilteredPipelines m).length)
    (huuid : ((getFilteredPipelines m).getD m.pipelineCursor.toNat dfltPipeline).UUID = []) :
    navKey m (strLit "enter") =
      ({ m with message := strLit "Selected pipeline has no UUID" }, []) := by
  have hlen : 0 < (getFilteredPipelines m).length := Nat.lt_of_le_of_lt (Nat.zero_le _) hcur.2
  unfold navKey
  rw [if_neg (by decide : ¬(strLit "enter" = strLit "q" ∨ strLit "enter" = strLit "ctrl+c"))]
  rw [if_neg (by decide : ¬(strLit "enter" = strLit "esc"))]
  rw [if_neg (by decide : ¬(strLit "enter" = strLit "/"))]
  rw [if_pos rfl]
  rw [if_neg (by simp [hpane])]
  rw [if_pos ⟨by simp [hf], hpane, hview, hlen⟩]
  simp only [huuid, if_pos rfl]
  rw [if_pos trivial]

theorem commitDetails_both_miss (m : AppModel) (hash : GoStr)
    (hview : m.currentView = ViewMode.prCommitsView)
    (hpane : m.activePane = Pane.branchPane)
    (hlen : m.prCommits.length ≠ 0)
    (hc0 : ¬(m.prCommitCursor < 0 ∨ (m.prCommits.length : Int) ≤ m.prCommitCursor))
    (hh : trimSpace (m.prCommits.getD m.prCommitCursor.toNat dfltCommit).Hash = hash)
    (hhash : hash ≠ [])
    (hslug : m.selectedRepoSlug ≠ [])
    (hmissC : lookupCache m.prCommitChangesCache hash = none)
    (hmissD : lookupCache m.prCommitDiffCache hash = none) :
    updateSelectedCommitDetails m =
      ({ m with selectedCommitHash := hash, prCommitChanges := [], prCommitDiff := [] },
       [Cmd.loadCommitChanges m.selectedRepoSlug hash,
        Cmd.loadCommitDiff m.selectedRepoSlug hash]) := by
  subst hh
  unfold updateSelectedCommitDetails
  rw [if_neg (by simp [hview, hpane, hlen])]
  rw [if_neg hc0]
  simp only [hmissC, hmissD, if_neg hhash]
  rw [if_neg (by simp)]
  rw [if_neg hslug]
  rw [if_pos (by simp)]
  rfl

theorem commitDetails_both_hit (m : AppModel) (hash : GoStr) (cs : List CommitChange) (d : GoStr)
    (hview : m.currentView = ViewMode.prCommitsView)
    (hpane : m.activePane = Pane.branchPane)
    (hlen : m.prCommits.length ≠ 0)
    (hc0 : ¬(m.prCommitCursor < 0 ∨ (m.prCommits.length : Int) ≤ m.prCommitCursor))
    (hh : trimSpace (m.prCommits.getD m.prCommitCursor.toNat dfltCommit).Hash = hash)
    (hhash : hash ≠ [])
    (hhitC : lookupCache m.prCommitChangesCache hash = some cs)
    (hhitD : lookupCache m.prCommitDiffCache hash = some d) :
    updateSelectedCommitDetails m =
      ({ m with selectedCommitHash := hash, prCommitChanges := cs, prCommitDiff := d }, []) := by
  subst hh
  unfold updateSelectedCommitDetails
  rw [if_neg (by simp [hview, hpane, hlen])]
  rw [if_neg hc0]
  simp only [hhitC, hhitD, if_neg hhash]
  rw [if_pos (by simp)]
  rfl

theorem step_polled_ok_not_running (m : AppModel) (p : Pipeline)
    (hrun : ¬ isPipelineRunning p = true) :
    (step m (Msg.pipelinePolled p none)).2 = [] := by
  simp only [step]
  rw [if_neg (by simp [hrun])]

theorem step_polled_ok_poll (m : AppModel) (p : Pipeline)
    (hmem : Cmd.pollPipelineUpdates ∈ (step m (Msg.pipelinePolled p none)).2) :
    isPipelineRunning p = true := by
  simp only [step] at hmem
  exact (ite_pair_poll _ _ hmem).2.2

theorem step_tick_cmds (m : AppModel) (slug u : GoStr)
    (hmem : Cmd.loadPipeline slug u ∈ (step m Msg.pipelinePollTick).2) :
    u = selectedRunningPipelineUUID m ∧ u ≠ [] ∧ slug = m.selectedRepoSlug := by
  revert hmem
  simp only [step]
  by_cases hA : m.activePane = Pane.branchPane ∧ m.currentView = ViewMode.pipelinesView ∧
      m.selectedRepoSlug ≠ []
  · rw [if_pos hA]
    by_cases hu : selectedRunningPipelineUUID m ≠ []
    · rw [if_pos hu]
      intro hmem
      simp only [List.mem_singleton, Cmd.loadPipeline.injEq] at hmem
      exact ⟨hmem.2, hmem.2 ▸ hu, hmem.1⟩
    · rw [if_neg hu]
      intro hmem
      simp at hmem
  · rw [if_neg hA]
    intro hmem
    simp at hmem

theorem selectedRunning_spec (m : AppModel)
    (h : selectedRunningPipelineUUID m ≠ []) :
    m.activePane = Pane.branchPane ∧ m.currentView = ViewMode.pipelinesView ∧
    ∃ p ∈ getFilteredPipelines m, isPipelineRunning p = true ∧
      p.UUID = selectedRunningPipelineUUID m := by
  revert h
  simp only [selectedRunningPipelineUUID]
  split_ifs with h1 h2 h3 <;> intro h
  all_goals try exact absurd rfl h
  push_neg at h1
  push_neg at h2
  refine ⟨h1.1, h1.2, (getFilteredPipelines m).getD m.pipelineCursor.toNat dfltPipeline,
    ?_, ?_, rfl⟩
  · have hlt : m.pipelineCursor.toNat < (getFilteredPipelines m).length := by omega
    rw [List.getD_eq_getElem _ _ hlt]
    exact List.getElem_mem _
  · simpa using h3

theorem step_pipelinesLoaded_poll (m : AppModel) (ps : List Pipeline)
    (hmem : Cmd.pollPipelineUpdates ∈ (step m (Msg.pipelinesLoaded ps none)).2) :
    selectedRunningPipelineUUID (step m (Msg.pipelinesLoaded ps none)).1 ≠ [] := by
  simp only [step] at hmem ⊢
  have h := ite_pair_poll _ _ hmem
  rw [ite_pair_fst]
  exact h.2.2

theorem step_polled_err_poll (m : AppModel) (p : Pipeline) (e : GoStr)
    (hmem : Cmd.pollPipelineUpdates ∈ (step m (Msg.pipelinePolled p (some e))).2) :
    selectedRunningPipelineUUID (step m (Msg.pipelinePolled p (some e))).1 ≠ [] := by
  simp only [step] at hmem ⊢
  have h := ite_pair_poll _ _ hmem
  rw [ite_pair_fst]
  exact h.2.2

theorem navKey_move_poll (m : AppModel) (k : GoStr)
    (hk : k = strLit "j" ∨ k = strLit "down" ∨ k = strLit "k" ∨ k = strLit "up")
    (hmem : Cmd.pollPipelineUpdates ∈ (navKey m k).2) :
    selectedRunningPipelineUUID (navKey m k).1 ≠ [] := by
  revert hmem
  unfold navKey
  rcases hk with rfl | rfl | rfl | rfl
  case _ =>
    rw [if_neg (by decide : ¬(strLit "j" = strLit "q" ∨ strLit "j" = strLit "ctrl+c")),
      if_neg (by decide : ¬(strLit "j" = strLit "esc")),
      if_neg (by decide : ¬(strLit "j" = strLit "/")),
      if_neg (by decide : ¬(strLit "j" = strLit "enter")),
      if_neg (by decide : ¬(strLit "j" = strLit "h")),
      if_neg (by decide : ¬(strLit "j" = strLit "l")),
      if_neg (by decide : ¬(strLit "j" = strLit "b")),
      if_pos (by decide : strLit "j" = strLit "j" ∨ strLit "j" = strLit "down")]
    by_cases hfm : m.filterMode = true
    · rw [if_neg (not_not_intro hfm)]
      intro hmem
      simp at hmem
    · rw [if_pos hfm]
      intro hmem
      have h := ite_pair_poll _ _ hmem
      rw [ite_pair_fst]
      exact h.2.2.2
  case _ =>
    rw [if_neg (by decide : ¬(strLit "down" = strLit "q" ∨ strLit "down" = strLit "ctrl+c")),
      if_neg (by decide : ¬(strLit "down" = strLit "esc")),
      if_neg (by decide : ¬(strLit "down" = strLit "/")),
      if_neg (by decide : ¬(strLit "down" = strLit "enter")),
      if_neg (by decide : ¬(strLit "down" = strLit "h")),
      if_neg (by decide : ¬(strLit "down" = strLit "l")),
      if_neg (by decide : ¬(strLit "down" = strLit "b")),
      if_pos (by decide : strLit "down" = strLit "j" ∨ strLit "down" = strLit "down")]
    by_cases hfm : m.filterMode = true
    · rw [if_neg (not_not_intro hfm)]
      intro hmem
      simp at hmem
    · rw [if_pos hfm]
      intro hmem
      have h := ite_pair_poll _ _ hmem
      rw [ite_pair_fst]
      exact h.2.2.2
  case _ =>
    rw [if_neg (by decide : ¬(strLit "k" = strLit "q" ∨ strLit "k" = strLit "ctrl+c")),
      if_neg (by decide : ¬(strLit "k" = strLit "esc")),
      if_neg (by decide : ¬(strLit "k" = strLit "/")),
      if_neg (by decide : ¬(strLit "k" = strLit "enter")),
      if_neg (by decide : ¬(strLit "k" = strLit "h")),
      if_neg (by decide : ¬(strLit "k" = strLit "l")),
      if_neg (by decide : ¬(strLit "k" = strLit "b")),
      if_neg (by decide : ¬(strLit "k" = strLit "j" ∨ strLit "k" = strLit "down")),
      if_pos (by decide : strLit "k" = strLit "k" ∨ strLit "k" = strLit "up")]
    by_cases hfm : m.filterMode = true
    · rw [if_neg (not_not_intro hfm)]
      intro hmem
      simp at hmem
    · rw [if_pos hfm]
      intro hmem
      have h := ite_pair_poll _ _ hmem
      rw [ite_pair_fst]
      exact h.2.2.2
  case _ =>
    rw [if_neg (by decide : ¬(strLit "up" = strLit "q" ∨ strLit "up" = strLit "ctrl+c")),
      if_neg (by decide : ¬(strLit "up" = strLit "esc")),
      if_neg (by decide : ¬(strLit "up" = strLit "/")),
      if_neg (by decide : ¬(strLit "up" = strLit "enter")),
      if_neg (by decide : ¬(strLit "up" = strLit "h")),
      if_neg (by decide : ¬(strLit "up" = strLit "l")),
      if_neg (by decide : ¬(strLit "up" = strLit "b")),
      if_neg (by decide : ¬(strLit "up" = strLit "j" ∨ strLit "up" = strLit "down")),
      if_pos (by decide : strLit "up" = strLit "k" ∨ strLit "up" = strLit "up")]
    by_cases hfm : m.filterMode = true
    · rw [if_neg (not_not_intro hfm)]
      intro hmem
      simp at hmem
    · rw [if_pos hfm]
      intro hmem
      have h := ite_pair_poll _ _ hmem
      rw [ite_pair_fst]
      exact h.2.2.2

theorem step_key_move_poll (m : AppModel) (k : GoStr)
    (hk : k = strLit "j" ∨ k = strLit "down" ∨ k = strLit "k" ∨ k = strLit "up")
    (hmem : Cmd.pollPipelineUpdates ∈ (step m (Msg.key k)).2) :
    selectedRunningPipelineUUID (step m (Msg.key k)).1 ≠ [] := by
  revert hmem
  by_cases hfm : m.filterMode = true
  · rw [step_key_filter m k hfm]
    intro hmem
    rw [filterModeKey_cmds] at hmem
    simp at hmem
  · have hf : m.filterMode = false := by
      revert hfm
      cases m.filterMode <;> simp
    rw [step_key_nav m k hf]
    exact navKey_move_poll _ k hk

/-! ## Claims -/

/-- C1, counterexample: with the non-empty query "3" over a feature-branch
pipeline whose build number is 3, the code's filter (which keeps the
tracked-branch restriction) returns the empty list, while the claim's rule
(restriction dropped once a query is typed) returns that pipeline; the two
disagree. -/
theorem claim1_counterexample :
    c1Model.pipelineFilterQuery ≠ [] ∧
    getFilteredPipelines c1Model = [] ∧
    specFilteredPipelines c1Model = [c1Pipeline] ∧
    getFilteredPipelines c1Model ≠ specFilteredPipelines c1Model := by
  decide

/-- C1, amended: the tracked-branch allow-list {develop, staging, main, master}
restricts the pipeline list in both filter states: with an empty query the
filtered set is exactly the tracked-branch pipelines, and with a non-empty
query it equals the case-insensitive substring matches (state, result, build
number, branch name) taken over the tracked-branch-restricted set, not the
full set. -/
theorem claim1_theorem (m : AppModel) :
    (m.pipelineFilterQuery = [] →
      getFilteredPipelines m =
        m.pipelines.filter (fun p => isTrackedPipelineBranch p.BranchName)) ∧
    (m.pipelineFilterQuery ≠ [] →
      getFilteredPipelines m =
        (m.pipelines.filter (fun p => isTrackedPipelineBranch p.BranchName)).filter
          (fun p => pipelineMatches p (toLowerG m.pipelineFilterQuery))) := by
  constructor
  · intro hq
    unfold getFilteredPipelines
    rw [if_pos (by simp [hq, toLowerG])]
  · intro hq
    have hq2 : toLowerG m.pipelineFilterQuery ≠ [] := by
      unfold toLowerG
      simpa using hq
    unfold getFilteredPipelines
    rw [if_neg hq2, List.filter_filter]
    exact List.filter_congr (fun a _ => Bool.and_comm _ _)

/-- C1, witness: the amended rule evaluated at the concrete query-"3" state. -/
theorem claim1_witness :
    getFilteredPipelines c1Model =
      (c1Model.pipelines.filter (fun p => isTrackedPipelineBranch p.BranchName)).filter
        (fun p => pipelineMatches p (toLowerG c1Model.pipelineFilterQuery)) :=
  (claim1_theorem c1Model).2 (by decide)

/-- C2, counterexample: with both caches empty (nothing resolved and, in the
model, nothing in flight is recorded), a first lookup for commit "abc" issues
the change-list and diff fetch pair, and a second lookup before any result
arrives issues the same pair again instead of returning no commands. -/
theorem claim2_counterexample :
    lookupCache c2Model.prCommitChangesCache (strLit "abc") = none ∧
    lookupCache c2Model.prCommitDiffCache (strLit "abc") = none ∧
    (updateSelectedCommitDetails c2Model).2 =
      [Cmd.loadCommitChanges (strLit "r1") (strLit "abc"),
       Cmd.loadCommitDiff (strLit "r1") (strLit "abc")] ∧
    (updateSelectedCommitDetails (updateSelectedCommitDetails c2Model).1).2 =
      [Cmd.loadCommitChanges (strLit "r1") (strLit "abc"),
       Cmd.loadCommitDiff (strLit "r1") (strLit "abc")] := by
  decide

/-- C2, amended: the lookup deduplicates only against resolved cache entries,
not in-flight fetches: if both entries for the hovered hash are cached, it
returns them with no commands; if neither is cached, every invocation issues
the fetch pair, so a second invocation before the first resolves issues a
second pair rather than none. -/
theorem claim2_theorem (m : AppModel) (hash : GoStr)
    (hview : m.currentView = ViewMode.prCommitsView)
    (hpane : m.activePane = Pane.branchPane)
    (hlen : m.prCommits.length ≠ 0)
    (hc0 : ¬(m.prCommitCursor < 0 ∨ (m.prCommits.length : Int) ≤ m.prCommitCursor))
    (hh : trimSpace (m.prCommits.getD m.prCommitCursor.toNat dfltCommit).Hash = hash)
    (hhash : hash ≠ []) :
    (∀ (cs : List CommitChange) (d : GoStr),
      lookupCache m.prCommitChangesCache hash = some cs →
      lookupCache m.prCommitDiffCache hash = some d →
      updateSelectedCommitDetails m =
        ({ m with selectedCommitHash := hash, prCommitChanges := cs, prCommitDiff := d },
         [])) ∧
    (m.selectedRepoSlug ≠ [] →
      lookupCache m.prCommitChangesCache hash = none →
      lookupCache m.prCommitDiffCache hash = none →
      (updateSelectedCommitDetails m).2 =
        [Cmd.loadCommitChanges m.selectedRepoSlug hash,
         Cmd.loadCommitDiff m.selectedRepoSlug hash] ∧
      (updateSelectedCommitDetails (updateSelectedCommitDetails m).1).2 =
        [Cmd.loadCommitChanges m.selectedRepoSlug hash,
         Cmd.loadCommitDiff m.selectedRepoSlug hash]) := by
  constructor
  · intro cs d hC hD
    exact commitDetails_both_hit m hash cs d hview hpane hlen hc0 hh hhash hC hD
  · intro hslug hmC hmD
    have h1 := commitDetails_both_miss m hash hview hpane hlen hc0 hh hhash hslug hmC hmD
    constructor
    · rw [h1]
    · rw [h1]
      have h2 := commitDetails_both_miss
        { m with selectedCommitHash := hash, prCommitChanges := [], prCommitDiff := [] }
        hash hview hpane hlen hc0 hh hhash hslug hmC hmD
      rw [h2]

/-- C2, witness: the amended statement applied at the concrete empty-cache
state hovering commit "abc". -/
theorem claim2_witness :
    (updateSelectedCommitDetails c2Model).2 =
      [Cmd.loadCommitChanges c2Model.selectedRepoSlug (strLit "abc"),
       Cmd.loadCommitDiff c2Model.selectedRepoSlug (strLit "abc")] ∧
    (updateSelectedCommitDetails (updateSelectedCommitDetails c2Model).1).2 =
      [Cmd.loadCommitChanges c2Model.selectedRepoSlug (strLit "abc"),
       Cmd.loadCommitDiff c2Model.selectedRepoSlug (strLit "abc")] :=
  (claim2_theorem c2Model (strLit "abc") rfl rfl (by decide) (by decide) (by decide)
    (by decide)).2 (by decide) (by decide) (by decide)

/-- C3, counterexample: at cursor 2, total 5, odd height 3, the window is
(1, 3), whose length 2 is not min(height, total) = 3, refuting the claimed
length for odd heights away from the boundaries. -/
theorem claim3_counterexample :
    0 ≤ (2 : Int) ∧ (2 : Int) < 5 ∧
    calculateWindow 2 5 3 = (1, 3) ∧
    (calculateWindow 2 5 3).2 - (calculateWindow 2 5 3).1 ≠ min 3 5 := by
  decide

/-- C3, amended: for cursor in [0, total) and height at least 0 the window is
contiguous and contained in [0, total]; its length is min(height, total) when
the height is even or when a boundary clamp applies (and in general is between
min(height, total) − height mod 2 and min(height, total) — for odd height the
unclamped window is one short since both ends use height / 2); it contains the
cursor whenever height is at least 2 or total fits entirely; and away from both
boundaries the window is exactly (cursor − height / 2, cursor + height / 2). -/
theorem claim3_theorem (cursor total height : Int)
    (hc0 : 0 ≤ cursor) (hct : cursor < total) (hh : 0 ≤ height) :
    0 ≤ (calculateWindow cursor total height).1 ∧
    (calculateWindow cursor total height).1 ≤ (calculateWindow cursor total height).2 ∧
    (calculateWindow cursor total height).2 ≤ total ∧
    (total ≤ height → calculateWindow cursor total height = (0, total)) ∧
    (calculateWindow cursor total height).2 - (calculateWindow cursor total height).1 ≤
      min height total ∧
    min height total - height % 2 ≤
      (calculateWindow cursor total height).2 - (calculateWindow cursor total height).1 ∧
    (height % 2 = 0 →
      (calculateWindow cursor total height).2 - (calculateWindow cursor total height).1 =
        min height total) ∧
    (height < total → cursor - height / 2 < 0 ∨ total < cursor + height / 2 →
      (calculateWindow cursor total height).2 - (calculateWindow cursor total height).1 =
        min height total) ∧
    (2 ≤ height ∨ total ≤ height →
      (calculateWindow cursor total height).1 ≤ cursor ∧
        cursor < (calculateWindow cursor total height).2) ∧
    (height < total → 0 ≤ cursor - height / 2 → cursor + height / 2 ≤ total →
      calculateWindow cursor total height = (cursor - height / 2, cursor + height / 2)) := by
  have htd : height.tdiv 2 = height / 2 := Int.tdiv_eq_ediv hh (by norm_num)
  by_cases hth : total ≤ height
  · have he : calculateWindow cursor total height = (0, total) := by
      unfold calculateWindow
      rw [if_pos hth]
    rw [he]
    simp
    omega
  · rw [calcWin_eq cursor total height hth, htd]
    split_ifs <;> simp <;> omega

/-- C3, witness: the amended properties at cursor 5, total 10, even height 4
(the window contains the cursor and has length min(4, 10) = 4) and at cursor 0,
total 5, odd clamped height 3 (the boundary clamp restores length
min(3, 5) = 3). -/
theorem claim3_witness :
    ((calculateWindow 5 10 4).1 ≤ 5 ∧ 5 < (calculateWindow 5 10 4).2 ∧
      (calculateWindow 5 10 4).2 - (calculateWindow 5 10 4).1 = min 4 10) ∧
    (calculateWindow 0 5 3).2 - (calculateWindow 0 5 3).1 = min 3 5 := by
  obtain ⟨h1, h2, h3, h4, h5, h6, h7, h8, h9, h10⟩ :=
    claim3_theorem 5 10 4 (by decide) (by decide) (by decide)
  obtain ⟨ha, hb⟩ := h9 (Or.inl (by decide))
  obtain ⟨g1, g2, g3, g4, g5, g6, g7, g8, g9, g10⟩ :=
    claim3_theorem 0 5 3 (by decide) (by decide) (by decide)
  exact ⟨⟨ha, hb, h7 (by decide)⟩, g8 (by decide) (Or.inl (by decide))⟩

/-- C4, counterexample: after the two-fetch trace (repo entered, Pipelines
opened twice laterally so two pipelines fetches are in flight, first result
applied, cursor moved to 1, second result applied), the cursor is 1 while the
filtered view has a single entry, so the cursor is outside [0, len(filtered)−1]
and the filtered view is not empty. -/
theorem claim4_counterexample :
    c4Model.pipelineCursor = 1 ∧
    (getFilteredPipelines c4Model).length = 1 ∧
    getFilteredPipelines c4Model ≠ [] ∧
    ¬(c4Model.pipelineCursor ≤ ((getFilteredPipelines c4Model).length : Int) - 1) := by
  decide

/-- C4, amended: applying a pipelines fetch result clamps the cursor into the
bounds of the raw fetched list — 0 when the list is empty, otherwise a value in
[0, len(pipelines)−1]; consequently, whenever the filter state is
non-restricting (the filtered view is as long as the raw list), the cursor also
lies in [0, len(filtered)−1] or the view is empty with cursor 0.  The invariant
over the filtered view does not survive a restricting filter state. -/
theorem claim4_theorem (m : AppModel) (ps : List Pipeline) :
    ((step m (Msg.pipelinesLoaded ps none)).1.pipelines = ps) ∧
    (ps = [] → (step m (Msg.pipelinesLoaded ps none)).1.pipelineCursor = 0) ∧
    (ps ≠ [] → 0 ≤ (step m (Msg.pipelinesLoaded ps none)).1.pipelineCursor ∧
      (step m (Msg.pipelinesLoaded ps none)).1.pipelineCursor < (ps.length : Int)) ∧
    ((getFilteredPipelines (step m (Msg.pipelinesLoaded ps none)).1).length = ps.length →
      (getFilteredPipelines (step m (Msg.pipelinesLoaded ps none)).1 = [] ∧
        (step m (Msg.pipelinesLoaded ps none)).1.pipelineCursor = 0) ∨
      (0 ≤ (step m (Msg.pipelinesLoaded ps none)).1.pipelineCursor ∧
        (step m (Msg.pipelinesLoaded ps none)).1.pipelineCursor ≤
          ((getFilteredPipelines (step m (Msg.pipelinesLoaded ps none)).1).length : Int) - 1)) := by
  refine ⟨by rw [step_pipelinesLoaded_fst], ?_, ?_, ?_⟩
  · intro h
    rw [step_pipelinesLoaded_cursor]
    subst h
    rfl
  · intro hne
    have hl : ps.length ≠ 0 := fun h0 => hne (List.eq_nil_of_length_eq_zero h0)
    rw [step_pipelinesLoaded_cursor]
    split_ifs with h1 h2 <;> omega
  · intro hlen
    by_cases hps : ps = []
    · left
      constructor
      · have : ps.length = 0 := by
          rw [hps]
          rfl
        rw [← List.length_eq_zero]
        omega
      · rw [step_pipelinesLoaded_cursor]
        subst hps
        rfl
    · right
      have hl : ps.length ≠ 0 := fun h0 => hps (List.eq_nil_of_length_eq_zero h0)
      rw [hlen, step_pipelinesLoaded_cursor]
      split_ifs with h1 h2 <;> omega

/-- C4, witness: applying a one-pipeline fetch result to the fresh model leaves
the cursor inside the raw list bounds. -/
theorem claim4_witness :
    0 ≤ (step (initialModel (strLit "ws"))
        (Msg.pipelinesLoaded [c1MainPipeline] none)).1.pipelineCursor ∧
    (step (initialModel (strLit "ws"))
        (Msg.pipelinesLoaded [c1MainPipeline] none)).1.pipelineCursor <
      (([c1MainPipeline] : List Pipeline).length : Int) :=
  (claim4_theorem (initialModel (strLit "ws")) [c1MainPipeline]).2.2.1 (by decide)

/-- C5: the poll loop self-terminates.  A successfully polled pipeline that is
no longer running yields no commands (so no reschedule for that identity); a
poll command carries exactly the hovered running pipeline's identity and the
selected repo slug; a non-empty selected running UUID certifies the
live-candidate predicate (Pipelines detail pane, hovered filtered pipeline
running); and cursor movement, pipelines-fetch completion and failed polls
reschedule only when the post-state still has a live candidate. -/
theorem claim5_theorem :
    (∀ (m : AppModel) (p : Pipeline), ¬ isPipelineRunning p = true →
       (step m (Msg.pipelinePolled p none)).2 = []) ∧
    (∀ (m : AppModel) (p : Pipeline),
       Cmd.pollPipelineUpdates ∈ (step m (Msg.pipelinePolled p none)).2 →
       isPipelineRunning p = true) ∧
    (∀ (m : AppModel) (slug u : GoStr),
       Cmd.loadPipeline slug u ∈ (step m Msg.pipelinePollTick).2 →
       u = selectedRunningPipelineUUID m ∧ u ≠ [] ∧ slug = m.selectedRepoSlug) ∧
    (∀ m : AppModel, selectedRunningPipelineUUID m ≠ [] →
       m.activePane = Pane.branchPane ∧ m.currentView = ViewMode.pipelinesView ∧
       ∃ p ∈ getFilteredPipelines m, isPipelineRunning p = true ∧
         p.UUID = selectedRunningPipelineUUID m) ∧
    (∀ (m : AppModel) (k : GoStr),
       (k = strLit "j" ∨ k = strLit "down" ∨ k = strLit "k" ∨ k = strLit "up") →
       Cmd.pollPipelineUpdates ∈ (step m (Msg.key k)).2 →
       selectedRunningPipelineUUID (step m (Msg.key k)).1 ≠ []) ∧
    (∀ (m : AppModel) (ps : List Pipeline),
       Cmd.pollPipelineUpdates ∈ (step m (Msg.pipelinesLoaded ps none)).2 →
       selectedRunningPipelineUUID (step m (Msg.pipelinesLoaded ps none)).1 ≠ []) ∧
    (∀ (m : AppModel) (p : Pipeline) (e : GoStr),
       Cmd.pollPipelineUpdates ∈ (step m (Msg.pipelinePolled p (some e))).2 →
       selectedRunningPipelineUUID (step m (Msg.pipelinePolled p (some e))).1 ≠ []) :=
  ⟨step_polled_ok_not_running, step_polled_ok_poll, step_tick_cmds, selectedRunning_spec,
   step_key_move_poll, step_pipelinesLoaded_poll, step_polled_err_poll⟩

/-- C5, witness: a poll result for a completed pipeline schedules nothing. -/
theorem claim5_witness :
    (step (initialModel (strLit "ws")) (Msg.pipelinePolled c4PipeA none)).2 = [] :=
  claim5_theorem.1 (initialModel (strLit "ws")) c4PipeA (by decide)

/-- C6, counterexample: after committing the repo-list query "a" with enter,
pressing "/" and then escape leaves the query empty instead of restoring the
pre-filter value "a" that it held when "/" was pressed. -/
theorem claim6_counterexample :
    c6Model.filterMode = false ∧
    c6Model.repoFilterQuery = strLit "a" ∧
    (run c6Model [Msg.key (strLit "/")]).filterMode = true ∧
    (run c6Model [Msg.key (strLit "/"), Msg.key (strLit "esc")]).repoFilterQuery ≠
      c6Model.repoFilterQuery := by
  decide

/-- C6, amended: in filter mode (outside the steps and log views, which have no
filter query), escape exits filter mode, sets the active list's cursor to 0 and
clears the active list's query to empty — which coincides with the pre-filter
value only when that value was itself empty. -/
theorem claim6_theorem (m : AppModel) (t : FilterTarget)
    (hf : m.filterMode = true) (ht : filterTargetOf m = some t) :
    ((step m (Msg.key (strLit "esc"))).2 = []) ∧
    (step m (Msg.key (strLit "esc"))).1.filterMode = false ∧
    targetQuery (step m (Msg.key (strLit "esc"))).1 t = [] ∧
    targetCursor (step m (Msg.key (strLit "esc"))).1 t = 0 := by
  rw [step_key_filter m _ hf, filterModeKey_esc { m with message := [] } t ht]
  cases t <;>
    simp [targetQuery, targetCursor, setTargetQuery, setTargetCursor]

/-- C6, witness: escape from filter mode over the repo list with committed
query "a" clears the query and resets the cursor. -/
theorem claim6_witness :
    ((step c6WitnessModel (Msg.key (strLit "esc"))).2 = []) ∧
    (step c6WitnessModel (Msg.key (strLit "esc"))).1.filterMode = false ∧
    targetQuery (step c6WitnessModel (Msg.key (strLit "esc"))).1 FilterTarget.repo = [] ∧
    targetCursor (step c6WitnessModel (Msg.key (strLit "esc"))).1 FilterTarget.repo = 0 :=
  claim6_theorem c6WitnessModel FilterTarget.repo rfl (by decide)

/-- C7: pressing enter in the Pipelines detail pane while the hovered filtered
pipeline has an empty UUID only sets the EmptyIdentityError status message
("Selected pipeline has no UUID"); the view, pane, selection context and every
other field are unchanged and no command is issued. -/
theorem claim7_theorem (m : AppModel)
    (hf : m.filterMode = false)
    (hpane : m.activePane = Pane.branchPane)
    (hview : m.currentView = ViewMode.pipelinesView)
    (hcur : 0 ≤ m.pipelineCursor ∧ m.pipelineCursor.toNat < (getFilteredPipelines m).length)
    (huuid : ((getFilteredPipelines m).getD m.pipelineCursor.toNat dfltPipeline).UUID = []) :
    step m (Msg.key (strLit "enter")) =
      ({ m with message := strLit "Selected pipeline has no UUID" }, []) := by
  rw [step_key_nav m _ hf]
  exact navKey_enter_noUUID { m with message := [] } hf hpane hview hcur huuid

/-- C7, witness: enter on the concrete empty-UUID pipeline state. -/
theorem claim7_witness :
    step c7Model (Msg.key (strLit "enter")) =
      ({ c7Model with message := strLit "Selected pipeline has no UUID" }, []) :=
  claim7_theorem c7Model rfl rfl rfl (by decide) (by decide)

/-- C8: in navigation mode one escape press pops exactly one level and issues
no command: from the log view to the steps view, from the steps view to the
Pipelines view (both keeping the detail pane), and from any sibling view
(Branches, PullRequests, Pipelines) to the repo list with no selected view. -/
theorem claim8_theorem (m : AppModel) (hf : m.filterMode = false) :
    ((step m (Msg.key (strLit "esc"))).2 = []) ∧
    (m.activePane = Pane.branchPane → m.currentView = ViewMode.pipelineStepLogView →
      (step m (Msg.key (strLit "esc"))).1.currentView = ViewMode.pipelineStepsView ∧
        (step m (Msg.key (strLit "esc"))).1.activePane = Pane.branchPane) ∧
    (m.activePane = Pane.branchPane → m.currentView = ViewMode.pipelineStepsView →
      (step m (Msg.key (strLit "esc"))).1.currentView = ViewMode.pipelinesView ∧
        (step m (Msg.key (strLit "esc"))).1.activePane = Pane.branchPane) ∧
    (m.activePane = Pane.branchPane →
      (m.currentView = ViewMode.branchesView ∨ m.currentView = ViewMode.prView ∨
        m.currentView = ViewMode.pipelinesView) →
      (step m (Msg.key (strLit "esc"))).1.currentView = ViewMode.noSelection ∧
        (step m (Msg.key (strLit "esc"))).1.activePane = Pane.repoPane) := by
  rw [step_key_nav m _ hf]
  exact navKey_esc_cases { m with message := [] }

/-- C8, witness: escape from the log view returns to the steps view. -/
theorem claim8_witness :
    ((step c8Model (Msg.key (strLit "esc"))).2 = []) ∧
    (step c8Model (Msg.key (strLit "esc"))).1.currentView = ViewMode.pipelineStepsView := by
  have h := claim8_theorem c8Model rfl
  exact ⟨h.1, (h.2.1 rfl rfl).1⟩

/-- C9: whenever the list fits the viewport (total ≤ height), the window is the
full range (0, total), for every cursor, total and height. -/
theorem claim9_theorem (cursor total height : Int) (h : total ≤ height) :
    calculateWindow cursor total height = (0, total) := by
  unfold calculateWindow
  simp [h]

/-- C9, witness: a one-element list in a two-row viewport. -/
theorem claim9_witness : (1 : Int) ≤ 2 ∧ calculateWindow 0 1 2 = (0, 1) :=
  ⟨by decide, claim9_theorem 0 1 2 (by decide)⟩

/-- C10, counterexample: in the steps view with a pending status message,
pressing "/" does not leave the state unchanged — the transient message is
cleared (as on every keypress) — although filter mode stays off. -/
theorem claim10_counterexample :
    c10Model.currentView = ViewMode.pipelineStepsView ∧
    c10Model.filterMode = false ∧
    (step c10Model (Msg.key (strLit "/"))).1.filterMode = false ∧
    (step c10Model (Msg.key (strLit "/"))).1 ≠ c10Model ∧
    (step c10Model (Msg.key (strLit "/"))).1 = { c10Model with message := [] } := by
  decide

/-- C10, amended: in the steps and log views, pressing "/" in navigation mode
does not enter filter mode and changes nothing except clearing the transient
status message (cleared on every keypress), and no command is issued; moreover
filter mode is never active in those two views in any reachable state, so no
query is ever editable there (those lists have no filter query at all). -/
theorem claim10_theorem :
    (∀ m : AppModel, m.filterMode = false → noFilterView m.currentView →
       step m (Msg.key (strLit "/")) = ({ m with message := [] }, [])) ∧
    (∀ m : AppModel, Reachable m →
       ¬(m.filterMode = true ∧ noFilterView m.currentView)) := by
  constructor
  · intro m hf hv
    rw [step_key_nav m _ hf, navKey_slash]
    rw [if_neg (fun hg => hv.elim (fun e => hg.1 e) (fun e => hg.2 e))]
  · exact reachable_no_filter_in_steps

/-- C10, witness: "/" in the concrete steps-view state only clears the
message. -/
theorem claim10_witness :
    step c10Model (Msg.key (strLit "/")) = ({ c10Model with message := [] }, []) :=
  claim10_theorem.1 c10Model rfl (Or.inl rfl)

end BitbucketTui
